import Mathlib

/-!
Verification development for the `ros2_berrygps` GPS driver
(`src/ros2_berrygps/gps_node.py`).

The NMEA fix-derivation engine of `GPSNode.add_sentence` is embedded as a
pure step function over an explicit `ReceiverState`, parameterised by an
abstract numeric type `α` together with a record `FloatOps α` of the
arithmetic operations the Python code applies to its floats (`+`, `*`,
unary minus, `** 2`, `math.sin`, `math.cos`, `math.radians`, halving for
quaternion half-angles, `math.isnan`, and the `float('NaN')` literal).
Instantiating `α` with `ℚ` gives an executable model; instantiating with
`ℝ` gives the idealised real-number reading of the float formulas.

`ros2_berrygps/gps_utils.py` (checksum helper, per-sentence-type decoder
tables `parse_maps`, `euler2quat`) is not part of the sources; the
definitions that stand in for it are modelled from the specification and
say so in their doc comments.  The NavSatStatus / NavSatFix constants come
from the external ROS `sensor_msgs` package and use its standard values.
-/

namespace BerryGps

/-- NavSatStatus.STATUS_NO_FIX from the external ROS sensor_msgs package. -/
def STATUS_NO_FIX : Int := -1

/-- NavSatStatus.STATUS_FIX from the external ROS sensor_msgs package. -/
def STATUS_FIX : Int := 0

/-- NavSatStatus.STATUS_SBAS_FIX from the external ROS sensor_msgs package. -/
def STATUS_SBAS_FIX : Int := 1

/-- NavSatStatus.STATUS_GBAS_FIX from the external ROS sensor_msgs package. -/
def STATUS_GBAS_FIX : Int := 2

/-- NavSatStatus.SERVICE_GPS from the external ROS sensor_msgs package. -/
def SERVICE_GPS : Nat := 1

/-- NavSatFix.COVARIANCE_TYPE_UNKNOWN from the external ROS sensor_msgs package. -/
def COVARIANCE_TYPE_UNKNOWN : Nat := 0

/-- NavSatFix.COVARIANCE_TYPE_APPROXIMATED from the external ROS sensor_msgs package. -/
def COVARIANCE_TYPE_APPROXIMATED : Nat := 1

/-- The floating-point operations used by `gps_node.py`, abstracted over the
carrier type `α`.  `sq` is Python's `** 2`, `radians` is `math.radians`,
`halfv` is division by two (used for quaternion half-angles), `isnan` is
`math.isnan` and `nan` is the `float('NaN')` literal. -/
structure FloatOps (α : Type) where
  zero : α
  two : α
  nan : α
  add : α → α → α
  mul : α → α → α
  neg : α → α
  sq : α → α
  sin : α → α
  cos : α → α
  radians : α → α
  halfv : α → α
  isnan : α → Bool

/-- Construction-time configuration of `GPSNode` (lines 43-53 of
`gps_node.py`): the `useRMC` primary-source flag, the six per-quality
default EPE parameters, and the time-reference source label. -/
structure Config (α : Type) where
  use_RMC : Bool
  default_epe_quality0 : α
  default_epe_quality1 : α
  default_epe_quality2 : α
  default_epe_quality4 : α
  default_epe_quality5 : α
  default_epe_quality9 : α
  time_ref_source : String

/-- The mutable cross-sentence state of `GPSNode` (lines 45, 55-59 of
`gps_node.py`), plus the `last_valid_fix_time` attribute first assigned at
line 234 (modelled as an `Option` pair of time value and source label). -/
structure ReceiverState (α : Type) where
  valid_fix : Bool
  using_receiver_epe : Bool
  lon_std_dev : α
  lat_std_dev : α
  alt_std_dev : α
  last_valid_fix_time : Option (α × String)

/-- Decoded fields of a GGA sentence consumed by lines 186-235. -/
structure GGAData (α : Type) where
  fix_type : Int
  latitude : α
  latitude_direction : String
  longitude : α
  longitude_direction : String
  altitude : α
  mean_sea_level : α
  hdop : α
  utc_time : α

/-- Decoded fields of a VTG sentence consumed by lines 237-247. -/
structure VTGData (α : Type) where
  speed : α
  true_course : α

/-- Decoded fields of an RMC sentence consumed by lines 249-288. -/
structure RMCData (α : Type) where
  fix_valid : Bool
  latitude : α
  latitude_direction : String
  longitude : α
  longitude_direction : String
  speed : α
  true_course : α
  utc_time : α

/-- Decoded fields of a GST sentence consumed by lines 289-296. -/
structure GSTData (α : Type) where
  lon_std_dev : α
  lat_std_dev : α
  alt_std_dev : α

/-- Decoded fields of an HDT sentence consumed by lines 297-308.  The
heading is `none` when the decoder produced no value. -/
structure HDTData (α : Type) where
  heading : Option α

/-- A parsed sentence: the tagged union `{sentence_type: fields}` returned
by `parse_nmea_sentence`. -/
inductive ParsedSentence (α : Type) where
  | gga : GGAData α → ParsedSentence α
  | vtg : VTGData α → ParsedSentence α
  | rmc : RMCData α → ParsedSentence α
  | gst : GSTData α → ParsedSentence α
  | hdt : HDTData α → ParsedSentence α

/-- A published NavSatFix message: the fields of `current_fix` that
`add_sentence` assigns.  `position_covariance` is the 9-entry row-major
3x3 matrix, zero-initialised by the `NavSatFix()` constructor. -/
structure FixEvent (α : Type) where
  status : Int
  service : Nat
  latitude : α
  longitude : α
  altitude : α
  position_covariance_type : Nat
  position_covariance : Fin 9 → α

/-- The messages `add_sentence` can publish: NavSatFix on `fix`,
TwistStamped linear x/y on `vel`, QuaternionStamped on `heading` and
TimeReference on `time_reference`. -/
inductive Event (α : Type) where
  | fix : FixEvent α → Event α
  | velocity : α → α → Event α
  | heading : α → α → α → α → Event α
  | timeRef : α → String → Event α

/-- The `gps_qualities` dictionary of lines 64-107: quality code to
(default EPE, NavSatStatus value, NavSatFix covariance type). -/
def gps_qualities (cfg : Config α) (fix_type : Int) : Option (α × Int × Nat) :=
  if fix_type = -1 then
    some (cfg.default_epe_quality0, STATUS_NO_FIX, COVARIANCE_TYPE_UNKNOWN)
  else if fix_type = 0 then
    some (cfg.default_epe_quality0, STATUS_NO_FIX, COVARIANCE_TYPE_UNKNOWN)
  else if fix_type = 1 then
    some (cfg.default_epe_quality1, STATUS_FIX, COVARIANCE_TYPE_APPROXIMATED)
  else if fix_type = 2 then
    some (cfg.default_epe_quality2, STATUS_SBAS_FIX, COVARIANCE_TYPE_APPROXIMATED)
  else if fix_type = 4 then
    some (cfg.default_epe_quality4, STATUS_GBAS_FIX, COVARIANCE_TYPE_APPROXIMATED)
  else if fix_type = 5 then
    some (cfg.default_epe_quality5, STATUS_GBAS_FIX, COVARIANCE_TYPE_APPROXIMATED)
  else if fix_type = 9 then
    some (cfg.default_epe_quality9, STATUS_GBAS_FIX, COVARIANCE_TYPE_APPROXIMATED)
  else
    none

/-- Lines 190-193: replace a quality code missing from `gps_qualities` by
`-1`, then look the entry up.  The `getD` default is unreachable because
`-1` is always in the table. -/
def lookup_gps_qual (cfg : Config α) (fix_type : Int) : α × Int × Nat :=
  let ft := if (gps_qualities cfg fix_type).isSome then fix_type else -1
  (gps_qualities cfg ft).getD
    (cfg.default_epe_quality0, STATUS_NO_FIX, COVARIANCE_TYPE_UNKNOWN)

/-- Lines 181-184: the TimeReference source is `time_ref_source` when that
string is truthy (non-empty), otherwise the frame id. -/
def resolve_time_ref_source (cfg : Config α) (frame_id : String) : String :=
  if cfg.time_ref_source = "" then frame_id else cfg.time_ref_source

/-- Python truthiness of a float value: `bool(x)` is false exactly for
zero. -/
def py_truthy [DecidableEq α] (ops : FloatOps α) (x : α) : Bool :=
  decide (x ≠ ops.zero)

/-- Modelled from the spec: `ros2_berrygps.gps_utils.euler2quat` is not
under src/.  Spec section 4.4 (HDT) says the engine constructs a yaw-only
rotation (roll = pitch = 0, yaw = heading in radians) and emits the
equivalent unit quaternion; with components in the (x, y, z, w) order the
caller at lines 303-307 unpacks, that quaternion is
(0, 0, sin(yaw/2), cos(yaw/2)). -/
def quaternion_from_euler_yaw (ops : FloatOps α) (yaw : α) : α × α × α × α :=
  (ops.zero, ops.zero, ops.sin (ops.halfv yaw), ops.cos (ops.halfv yaw))

/-- The receiver state established by `__init__` (lines 45, 55-59):
no valid fix, not using receiver EPE, all std-devs NaN. -/
def initial_state (ops : FloatOps α) : ReceiverState α :=
  { valid_fix := false
    using_receiver_epe := false
    lon_std_dev := ops.nan
    lat_std_dev := ops.nan
    alt_std_dev := ops.nan
    last_valid_fix_time := none }

/-- Lines 186-235: processing a GGA sentence (reached only when
`use_RMC` is false).  Quality lookup, `valid_fix` update, hemisphere
signs, MSL altitude correction, the EPE resolution policy, covariance
construction, the fix publication and the conditional time reference. -/
def process_gga [DecidableEq α] (ops : FloatOps α) (cfg : Config α) (frame_id : String)
    (st : ReceiverState α) (d : GGAData α) : ReceiverState α × List (Event α) :=
  let q := lookup_gps_qual cfg d.fix_type
  let default_epe := q.1
  let status := q.2.1
  let cov_type := q.2.2
  let latitude := if d.latitude_direction = "S" then ops.neg d.latitude else d.latitude
  let longitude := if d.longitude_direction = "W" then ops.neg d.longitude else d.longitude
  let altitude := ops.add d.altitude d.mean_sea_level
  let lon_std :=
    if !st.using_receiver_epe || ops.isnan st.lon_std_dev then default_epe
    else st.lon_std_dev
  let lat_std :=
    if !st.using_receiver_epe || ops.isnan st.lat_std_dev then default_epe
    else st.lat_std_dev
  let alt_std :=
    if !st.using_receiver_epe || ops.isnan st.alt_std_dev then ops.mul default_epe ops.two
    else st.alt_std_dev
  let cov : Fin 9 → α := fun i =>
    if i.val = 0 then ops.sq (ops.mul d.hdop lon_std)
    else if i.val = 4 then ops.sq (ops.mul d.hdop lat_std)
    else if i.val = 8 then ops.sq (ops.mul (ops.mul ops.two d.hdop) alt_std)
    else ops.zero
  let fix : FixEvent α :=
    { status := status
      service := SERVICE_GPS
      latitude := latitude
      longitude := longitude
      altitude := altitude
      position_covariance_type := cov_type
      position_covariance := cov }
  let st1 : ReceiverState α :=
    { st with
      valid_fix := decide (status > 0)
      lon_std_dev := lon_std
      lat_std_dev := lat_std
      alt_std_dev := alt_std }
  if ops.isnan d.utc_time then
    (st1, [Event.fix fix])
  else
    let src := resolve_time_ref_source cfg frame_id
    ({ st1 with last_valid_fix_time := some (d.utc_time, src) },
     [Event.fix fix, Event.timeRef d.utc_time src])

/-- Lines 237-247: VTG velocity, published only under a current valid
fix. -/
def process_vtg (ops : FloatOps α) (st : ReceiverState α) (d : VTGData α) :
    ReceiverState α × List (Event α) :=
  if st.valid_fix then
    (st, [Event.velocity (ops.mul d.speed (ops.sin d.true_course))
                         (ops.mul d.speed (ops.cos d.true_course))])
  else
    (st, [])

/-- Lines 249-288: RMC.  The fix/time half is gated on `use_RMC`; the
velocity half depends only on the sentence's own validity flag. -/
def process_rmc (ops : FloatOps α) (cfg : Config α) (frame_id : String)
    (st : ReceiverState α) (d : RMCData α) : ReceiverState α × List (Event α) :=
  let fix_events : List (Event α) :=
    if cfg.use_RMC then
      let status := if d.fix_valid then STATUS_FIX else STATUS_NO_FIX
      let latitude := if d.latitude_direction = "S" then ops.neg d.latitude else d.latitude
      let longitude := if d.longitude_direction = "W" then ops.neg d.longitude else d.longitude
      let fix : FixEvent α :=
        { status := status
          service := SERVICE_GPS
          latitude := latitude
          longitude := longitude
          altitude := ops.nan
          position_covariance_type := COVARIANCE_TYPE_UNKNOWN
          position_covariance := fun _ => ops.zero }
      if ops.isnan d.utc_time then
        [Event.fix fix]
      else
        [Event.fix fix, Event.timeRef d.utc_time (resolve_time_ref_source cfg frame_id)]
    else
      []
  let vel_events : List (Event α) :=
    if d.fix_valid then
      [Event.velocity (ops.mul d.speed (ops.sin d.true_course))
                      (ops.mul d.speed (ops.cos d.true_course))]
    else
      []
  (st, fix_events ++ vel_events)

/-- Lines 289-296: GST overwrites the receiver-EPE state and publishes
nothing. -/
def process_gst (st : ReceiverState α) (d : GSTData α) :
    ReceiverState α × List (Event α) :=
  ({ st with
      using_receiver_epe := true
      lon_std_dev := d.lon_std_dev
      lat_std_dev := d.lat_std_dev
      alt_std_dev := d.alt_std_dev }, [])

/-- Lines 297-308: HDT publishes a yaw-only quaternion when the heading
field is truthy (`if data['heading']:`). -/
def process_hdt [DecidableEq α] (ops : FloatOps α) (st : ReceiverState α)
    (d : HDTData α) : ReceiverState α × List (Event α) :=
  match d.heading with
  | none => (st, [])
  | some h =>
    if py_truthy ops h then
      let q := quaternion_from_euler_yaw ops (ops.radians h)
      (st, [Event.heading q.1 q.2.1 q.2.2.1 q.2.2.2])
    else
      (st, [])

/-- The dispatch chain of lines 186-310 on an already-parsed sentence.
GGA and VTG are reached only when `use_RMC` is false (a GGA or VTG parsed
under `use_RMC` falls through every branch to `return False`); RMC, GST
and HDT are reached unconditionally. -/
def add_sentence_parsed [DecidableEq α] (ops : FloatOps α) (cfg : Config α)
    (frame_id : String) (st : ReceiverState α) :
    ParsedSentence α → ReceiverState α × List (Event α)
  | .gga d => if cfg.use_RMC then (st, []) else process_gga ops cfg frame_id st d
  | .vtg d => if cfg.use_RMC then (st, []) else process_vtg ops st d
  | .rmc d => process_rmc ops cfg frame_id st d
  | .gst d => process_gst st d
  | .hdt d => process_hdt ops st d

/-- Folding the engine state over a list of parsed sentences. -/
def run_sentences [DecidableEq α] (ops : FloatOps α) (cfg : Config α)
    (frame_id : String) (st : ReceiverState α) :
    List (ParsedSentence α) → ReceiverState α
  | [] => st
  | p :: ps =>
    run_sentences ops cfg frame_id (add_sentence_parsed ops cfg frame_id st p).1 ps

/-- A parsed sentence that can switch `valid_fix` from false to true: a
GGA whose quality-table status is strictly positive (only GGA processing
writes `valid_fix`). -/
def restores_fix (cfg : Config α) : ParsedSentence α → Bool
  | .gga d => decide ((lookup_gps_qual cfg d.fix_type).2.1 > 0)
  | _ => false

/-- The first NavSatFix message in a published-event list. -/
def first_fix_event : List (Event α) → Option (FixEvent α)
  | [] => none
  | .fix f :: _ => some f
  | _ :: es => first_fix_event es

/-- Decidable test for the character class `[0-9A-Fa-f]`. -/
def isHexChar (c : Char) : Bool :=
  ('0' ≤ c && c ≤ '9') || ('A' ≤ c && c ≤ 'F') || ('a' ≤ c && c ≤ 'f')

/-- Numeric value of a hex digit (case-insensitive). -/
def hexDigitVal (c : Char) : Nat :=
  if '0' ≤ c ∧ c ≤ '9' then c.toNat - '0'.toNat
  else if 'A' ≤ c ∧ c ≤ 'F' then c.toNat - 'A'.toNat + 10
  else if 'a' ≤ c ∧ c ≤ 'f' then c.toNat - 'a'.toNat + 10
  else 0

/-- ASCII reading of the regex word class `\w`. -/
def isWordChar (c : Char) : Bool :=
  c.isAlphanum || c = '_'

/-- Python regex `$` also matches just before one trailing newline, so
matching a pattern anchored at `$` against `s` is matching it against `s`
with a single trailing newline removed. -/
def stripTrailingNewline (cs : List Char) : List Char :=
  if cs.getLast? = some '\n' then cs.dropLast else cs

/-- Decidable test that three characters are one of the four talker heads
`$GP`, `$GN`, `$GL`, `$IN`. -/
def talkerOk (l : List Char) : Bool :=
  decide (l = ['$', 'G', 'P']) || decide (l = ['$', 'G', 'N']) ||
  decide (l = ['$', 'G', 'L']) || decide (l = ['$', 'I', 'N'])

/-- Split off a trailing `*hh` (two hex digits) from a character list,
returning the part before the `*` together with the two digits. -/
def tail_star_hex (cs : List Char) : Option (List Char × Char × Char) :=
  match cs.reverse with
  | c2 :: c1 :: '*' :: revBody =>
    if isHexChar c1 && isHexChar c2 then some (revBody.reverse, c1, c2) else none
  | _ => none

/-- The structural check of `parse_nmea_sentence` (line 134):
`re.match(r'(^\$GP|^\$GN|^\$GL|^\$IN).*\*[0-9A-Fa-f]{2}$', s)`.  The line
must start with one of the four talker heads and, after the head, consist
of newline-free characters followed by `*` and two hex digits at the end
(`.` does not cross a newline; `$` allows one trailing newline). -/
def parse_nmea_regex_ok (line : String) : Bool :=
  talkerOk ((stripTrailingNewline line.data).take 3) &&
  (tail_star_hex (stripTrailingNewline line.data)).elim false
    (fun p => (p.1.drop 3).all (fun c => decide (c ≠ '\n')))

/-- Modelled from the spec: the structural grammar of spec section 4.2,
`^\$(GP|GN|GL|IN)\w+(,[^,*]*)*\*[0-9A-Fa-f]{2}$`, with `\w` read as ASCII
word characters.  The body between the talker head and the `*hh` suffix
must split into a nonempty word-character run followed by a field block
that is empty or starts with `,` and contains no `*`; that split exists
exactly when the maximal word-character run is nonempty and its remainder
is empty or starts with `,` and has no `*`. -/
def spec_structural_ok (line : String) : Bool :=
  (tail_star_hex (stripTrailingNewline line.data)).elim false (fun p =>
    talkerOk (p.1.take 3) &&
    (let t := p.1.drop 3
     let ws := t.takeWhile isWordChar
     let fs := t.dropWhile isWordChar
     !ws.isEmpty &&
     (fs.isEmpty || (decide (fs.head? = some ',') && fs.all (fun c => decide (c ≠ '*'))))))

/-- Modelled from the spec: the key set of `gps_utils.parse_maps` (not
under src/), the closed set of sentence types of spec section 3. -/
def supported_sentence_types : List String :=
  ["GGA", "RMC", "GST", "VTG", "HDT"]

/-- Outcome of `parse_nmea_sentence`: the two `return False` paths are
distinguished by their diagnostic (regex mismatch versus a type missing
from `parse_maps`). -/
inductive ParseOutcome where
  | malformed : ParseOutcome
  | unsupported : ParseOutcome
  | ok : String → List String → ParseOutcome
  deriving DecidableEq

/-- Splitting a character list at commas, the model of Python's
`nmea_sentence.split(',')` (pieces never contain a comma, so the
subsequent `strip(',')` of line 138 is the identity on them). -/
def split_fields : List Char → List (List Char)
  | [] => [[]]
  | c :: cs =>
    if c = ',' then [] :: split_fields cs
    else
      match split_fields cs with
      | f :: fs => (c :: f) :: fs
      | [] => [[c]]

/-- Lines 131-154 of `gps_node.py` up to field decoding: regex check,
split on `,`, sentence type = first field minus `$` and the two talker
letters (`fields[0][3:]`), and the `parse_maps` membership test.
Decoding the fields themselves lives in the missing `gps_utils`, so `ok`
returns the type and raw fields for an abstract decoder. -/
def parse_nmea_sentence (line : String) : ParseOutcome :=
  if !parse_nmea_regex_ok line then
    .malformed
  else
    let fields := (split_fields line.data).map String.mk
    let sentence_type := String.mk (((split_fields line.data).headD []).drop 3)
    if supported_sentence_types.contains sentence_type then
      .ok sentence_type fields
    else
      .unsupported

/-- Modelled from the spec: `gps_utils.check_nmea_checksum` is not under
src/.  Spec section 4.1: XOR all bytes strictly between `$` and `*`
(`*` unique by the RawSentence invariant) and compare with the two hex
digits after `*`, case-insensitively. -/
def check_nmea_checksum (line : String) : Bool :=
  match line.data with
  | '$' :: rest =>
    (match rest.reverse with
     | c2 :: c1 :: '*' :: revPayload =>
       isHexChar c1 && isHexChar c2 &&
       revPayload.all (fun c => decide (c ≠ '*')) &&
       decide (revPayload.reverse.foldl (fun a c => Nat.xor a c.toNat) 0 =
               16 * hexDigitVal c1 + hexDigitVal c2)
     | _ => false)
  | _ => false

/-- Lines 159-310: the whole of `add_sentence` on a raw line.  The field
decoders of `gps_utils.parse_maps` are not under src/, so the decoding
step is an abstract parameter `dec` from sentence type and raw fields to
a `ParsedSentence`. -/
def add_sentence [DecidableEq α] (ops : FloatOps α) (cfg : Config α)
    (dec : String → List String → ParsedSentence α) (frame_id : String)
    (st : ReceiverState α) (line : String) : ReceiverState α × List (Event α) :=
  if !check_nmea_checksum line then
    (st, [])
  else
    match parse_nmea_sentence line with
    | .malformed => (st, [])
    | .unsupported => (st, [])
    | .ok ty fields => add_sentence_parsed ops cfg frame_id st (dec ty fields)

/-- Executable rational instantiation of the float operations (`sin`,
`cos`, `radians` and `halfv` are unconstrained by `FloatOps`, so any
functions serve; `isnan` is constantly false since `ℚ` has no NaN and
`nan` is represented by 0). -/
def ratOps : FloatOps ℚ :=
  { zero := 0
    two := 2
    nan := 0
    add := (· + ·)
    mul := (· * ·)
    neg := (- ·)
    sq := (· ^ 2)
    sin := id
    cos := id
    radians := id
    halfv := id
    isnan := fun _ => false }

/-- Real-number instantiation of the float operations, for the idealised
reading of the trigonometric formulas. -/
noncomputable def realOps : FloatOps ℝ :=
  { zero := 0
    two := 2
    nan := 0
    add := (· + ·)
    mul := (· * ·)
    neg := (- ·)
    sq := (· ^ 2)
    sin := Real.sin
    cos := Real.cos
    radians := fun d => d * (Real.pi / 180)
    halfv := fun x => x / 2
    isnan := fun _ => false }

/-- A concrete configuration over `ℚ` with the parameter defaults of
lines 44-53 (`useRMC` false, EPE defaults 1000000, 4, 0.1, 0.02, 4, 3). -/
def cfgQ : Config ℚ :=
  { use_RMC := false
    default_epe_quality0 := 1000000
    default_epe_quality1 := 4
    default_epe_quality2 := 1 / 10
    default_epe_quality4 := 1 / 50
    default_epe_quality5 := 4
    default_epe_quality9 := 3
    time_ref_source := "gps" }

/-- The configuration of `cfgQ` with RMC selected as primary source. -/
def cfgQrmc : Config ℚ :=
  { cfgQ with use_RMC := true }

/-- A concrete GGA record with quality code 1 (SPS fix). -/
def ggaQ1 : GGAData ℚ :=
  { fix_type := 1
    latitude := 481173 / 10000
    latitude_direction := "N"
    longitude := 115166 / 10000
    longitude_direction := "E"
    altitude := 5454 / 10
    mean_sea_level := 469 / 10
    hdop := 9 / 10
    utc_time := 45319 }

/-- A concrete GGA record with quality code 0 (invalid). -/
def ggaQ0 : GGAData ℚ :=
  { ggaQ1 with fix_type := 0 }

/-- A concrete GST record with finite std-devs. -/
def gstQ : GSTData ℚ :=
  { lon_std_dev := 3 / 2
    lat_std_dev := 5 / 2
    alt_std_dev := 7 / 2 }

/-- A concrete VTG record. -/
def vtgQ : VTGData ℚ :=
  { speed := 224 / 10
    true_course := 844 / 10 }

/-- A concrete RMC record with a true validity flag. -/
def rmcQ : RMCData ℚ :=
  { fix_valid := true
    latitude := 481173 / 10000
    latitude_direction := "N"
    longitude := 115166 / 10000
    longitude_direction := "E"
    speed := 224 / 10
    true_course := 844 / 10
    utc_time := 45319 }

/-- A concrete GGA record with southern and western hemisphere letters. -/
def ggaQS : GGAData ℚ :=
  { ggaQ1 with latitude_direction := "S", longitude_direction := "W" }

/-- A concrete RMC record with southern and western hemisphere letters. -/
def rmcQS : RMCData ℚ :=
  { rmcQ with latitude_direction := "S", longitude_direction := "W" }

/-- A trivial decoder for instantiating the abstract decoding parameter
of `add_sentence` in concrete runs. -/
def decQ : String → List String → ParsedSentence ℚ :=
  fun _ _ => ParsedSentence.gst gstQ

/-- Processing a GGA sentence in GGA/VTG mode sets `valid_fix` to the
truth value of `status > 0`, where `status` is the quality-table status
(line 197 compares the NavSatStatus value, not the quality code, against
zero). -/
theorem gga_valid_fix_eq {α : Type} [DecidableEq α] (ops : FloatOps α) (cfg : Config α)
    (frame_id : String) (st : ReceiverState α) (d : GGAData α) (h : cfg.use_RMC = false) :
    (add_sentence_parsed ops cfg frame_id st (.gga d)).1.valid_fix =
      decide ((lookup_gps_qual cfg d.fix_type).2.1 > 0) := by
  simp only [add_sentence_parsed, h, Bool.false_eq_true, if_false]
  unfold process_gga
  by_cases hnan : ops.isnan d.utc_time <;> simp [hnan]

/-- C1 fails on the code: a GGA sentence with quality code 1 yields the
plain FIX status (0), which is strictly greater than the no-fix status
(-1), yet `valid_fix` is set to false because line 197 tests
`status > 0` rather than `status > STATUS_NO_FIX`. -/
theorem c1_valid_fix_counterexample :
    (add_sentence_parsed ratOps cfgQ "gps" (initial_state ratOps) (.gga ggaQ1)).1.valid_fix
        = false ∧
    (lookup_gps_qual cfgQ ggaQ1.fix_type).2.1 > STATUS_NO_FIX := by
  exact ⟨rfl, by decide⟩

/-- C1 (amended): when a GGA sentence is processed with GGA/VTG as the
primary fix source, `valid_fix` is set to true iff the quality-table
status is strictly greater than 0 (the plain FIX value), i.e. only for
SBAS/GBAS statuses; in particular quality code 1 leaves `valid_fix`
false. -/
theorem c1_valid_fix_amended {α : Type} [DecidableEq α] (ops : FloatOps α) (cfg : Config α)
    (frame_id : String) (st : ReceiverState α) (d : GGAData α) (h : cfg.use_RMC = false) :
    (add_sentence_parsed ops cfg frame_id st (.gga d)).1.valid_fix =
      decide ((lookup_gps_qual cfg d.fix_type).2.1 > 0) :=
  gga_valid_fix_eq ops cfg frame_id st d h

/-- Witness for `c1_valid_fix_amended` at quality code 2 (SBAS status 1),
where the amended rule yields a true `valid_fix`. -/
theorem c1_valid_fix_amended_witness :
    cfgQ.use_RMC = false ∧
    (add_sentence_parsed ratOps cfgQ "gps" (initial_state ratOps)
        (.gga { ggaQ1 with fix_type := 2 })).1.valid_fix =
      decide ((lookup_gps_qual cfgQ ({ ggaQ1 with fix_type := 2 } : GGAData ℚ).fix_type).2.1 > 0) :=
  ⟨rfl, c1_valid_fix_amended ratOps cfgQ "gps" (initial_state ratOps)
    { ggaQ1 with fix_type := 2 } rfl⟩

/-- C3: every RMC sentence whose validity flag is true emits a
VelocityEvent with vx = speed * sin(course) and vy = speed * cos(course),
for every primary-source selection and every current state (in particular
every `valid_fix` value). -/
theorem c3_rmc_velocity_unconditional {α : Type} [DecidableEq α] (ops : FloatOps α)
    (cfg : Config α) (frame_id : String) (st : ReceiverState α) (d : RMCData α)
    (h : d.fix_valid = true) :
    Event.velocity (ops.mul d.speed (ops.sin d.true_course))
        (ops.mul d.speed (ops.cos d.true_course)) ∈
      (add_sentence_parsed ops cfg frame_id st (.rmc d)).2 := by
  simp only [add_sentence_parsed]
  unfold process_rmc
  simp [h]

/-- Witness for `c3_rmc_velocity_unconditional` on a concrete valid RMC
record, with GGA/VTG selected as primary source and no valid fix. -/
theorem c3_rmc_velocity_witness :
    rmcQ.fix_valid = true ∧
    (initial_state ratOps).valid_fix = false ∧
    Event.velocity (ratOps.mul rmcQ.speed (ratOps.sin rmcQ.true_course))
        (ratOps.mul rmcQ.speed (ratOps.cos rmcQ.true_course)) ∈
      (add_sentence_parsed ratOps cfgQ "gps" (initial_state ratOps) (.rmc rmcQ)).2 :=
  ⟨rfl, rfl, c3_rmc_velocity_unconditional ratOps cfgQ "gps" (initial_state ratOps) rmcQ rfl⟩

/-- C4 fails on the code: a present heading of 0.0 degrees emits nothing,
because line 299 tests Python truthiness of the float (`if
data['heading']:`), and 0.0 is falsy. -/
theorem c4_hdt_zero_counterexample :
    (({ heading := some 0 } : HDTData ℚ)).heading = some 0 ∧
    (add_sentence_parsed ratOps cfgQ "gps" (initial_state ratOps)
        (.hdt { heading := some 0 })).2 = [] :=
  ⟨rfl, rfl⟩

/-- C4 (amended): an HDT sentence emits a HeadingEvent carrying the
yaw-only quaternion (roll = pitch = 0, yaw = heading in radians) iff the
heading value is present and nonzero; an absent heading, or a heading
equal to 0.0 (falsy in Python), emits nothing. -/
theorem c4_hdt_amended {α : Type} [DecidableEq α] (ops : FloatOps α) (cfg : Config α)
    (frame_id : String) (st : ReceiverState α) (d : HDTData α) :
    (d.heading = none → add_sentence_parsed ops cfg frame_id st (.hdt d) = (st, [])) ∧
    (∀ h, d.heading = some h → h = ops.zero →
      add_sentence_parsed ops cfg frame_id st (.hdt d) = (st, [])) ∧
    (∀ h, d.heading = some h → h ≠ ops.zero →
      add_sentence_parsed ops cfg frame_id st (.hdt d) =
        (st, [Event.heading (quaternion_from_euler_yaw ops (ops.radians h)).1
          (quaternion_from_euler_yaw ops (ops.radians h)).2.1
          (quaternion_from_euler_yaw ops (ops.radians h)).2.2.1
          (quaternion_from_euler_yaw ops (ops.radians h)).2.2.2])) := by
  refine ⟨fun hnone => ?_, fun h hsome hzero => ?_, fun h hsome hnz => ?_⟩ <;>
    simp only [add_sentence_parsed] <;> unfold process_hdt
  · rw [hnone]
  · rw [hsome]
    simp [py_truthy, hzero]
  · rw [hsome]
    simp [py_truthy, hnz]

/-- Witness for `c4_hdt_amended` at a concrete heading of 45 degrees. -/
theorem c4_hdt_amended_witness :
    (({ heading := some 45 } : HDTData ℚ)).heading = some 45 ∧
    (45 : ℚ) ≠ ratOps.zero ∧
    add_sentence_parsed ratOps cfgQ "gps" (initial_state ratOps)
        (.hdt { heading := some 45 }) =
      (initial_state ratOps,
        [Event.heading (quaternion_from_euler_yaw ratOps (ratOps.radians 45)).1
          (quaternion_from_euler_yaw ratOps (ratOps.radians 45)).2.1
          (quaternion_from_euler_yaw ratOps (ratOps.radians 45)).2.2.1
          (quaternion_from_euler_yaw ratOps (ratOps.radians 45)).2.2.2]) :=
  ⟨rfl, by decide,
    (c4_hdt_amended ratOps cfgQ "gps" (initial_state ratOps) { heading := some 45 }).2.2
      45 rfl (by decide)⟩

/-- The modelled yaw-only quaternion has unit norm over the real-number
instantiation, so the emitted HeadingEvent indeed carries a unit
quaternion. -/
theorem quaternion_from_euler_yaw_unit (y : ℝ) :
    (quaternion_from_euler_yaw realOps y).1 ^ 2 +
    (quaternion_from_euler_yaw realOps y).2.1 ^ 2 +
    (quaternion_from_euler_yaw realOps y).2.2.1 ^ 2 +
    (quaternion_from_euler_yaw realOps y).2.2.2 ^ 2 = 1 := by
  simp only [quaternion_from_euler_yaw, realOps]
  norm_num [Real.sin_sq_add_cos_sq]

/-- C10: for every GGA sentence, in GGA/VTG mode, whose decoded UTC time
is not NaN, a TimeRefEvent is emitted and stored as
`last_valid_fix_time`, for every quality code (in particular when the
quality code maps to a no-fix status). -/
theorem c10_gga_time_ref {α : Type} [DecidableEq α] (ops : FloatOps α) (cfg : Config α)
    (frame_id : String) (st : ReceiverState α) (d : GGAData α)
    (h : cfg.use_RMC = false) (hn : ops.isnan d.utc_time = false) :
    Event.timeRef d.utc_time (resolve_time_ref_source cfg frame_id) ∈
      (add_sentence_parsed ops cfg frame_id st (.gga d)).2 ∧
    (add_sentence_parsed ops cfg frame_id st (.gga d)).1.last_valid_fix_time =
      some (d.utc_time, resolve_time_ref_source cfg frame_id) := by
  simp only [add_sentence_parsed, h, Bool.false_eq_true, if_false]
  unfold process_gga
  simp [hn]

/-- Witness for `c10_gga_time_ref` on a quality-0 (no-fix) GGA record,
showing fix invalidity does not suppress the time reference. -/
theorem c10_gga_time_ref_witness :
    cfgQ.use_RMC = false ∧
    ratOps.isnan ggaQ0.utc_time = false ∧
    (add_sentence_parsed ratOps cfgQ "gps" (initial_state ratOps) (.gga ggaQ0)).1.valid_fix
        = false ∧
    Event.timeRef ggaQ0.utc_time (resolve_time_ref_source cfgQ "gps") ∈
      (add_sentence_parsed ratOps cfgQ "gps" (initial_state ratOps) (.gga ggaQ0)).2 ∧
    (add_sentence_parsed ratOps cfgQ "gps" (initial_state ratOps) (.gga ggaQ0)).1.last_valid_fix_time
        = some (ggaQ0.utc_time, resolve_time_ref_source cfgQ "gps") :=
  ⟨rfl, rfl, rfl,
    (c10_gga_time_ref ratOps cfgQ "gps" (initial_state ratOps) ggaQ0 rfl rfl).1,
    (c10_gga_time_ref ratOps cfgQ "gps" (initial_state ratOps) ggaQ0 rfl rfl).2⟩

/-- C2: a GGA processed after a GST that stored finite (non-NaN) std-devs
uses those receiver-supplied std-devs unchanged in the covariance
computation and keeps them in the state; and in general each std-dev is
overwritten with the quality-table default exactly when
`using_receiver_epe` is false or that std-dev is NaN, the altitude
std-dev using twice the default. -/
theorem c2_epe_fallback {α : Type} [DecidableEq α] (ops : FloatOps α) (cfg : Config α)
    (frame_id : String) (st : ReceiverState α) (g : GSTData α) (d : GGAData α)
    (h : cfg.use_RMC = false)
    (hlon : ops.isnan g.lon_std_dev = false)
    (hlat : ops.isnan g.lat_std_dev = false)
    (halt : ops.isnan g.alt_std_dev = false) :
    ((add_sentence_parsed ops cfg frame_id
        (add_sentence_parsed ops cfg frame_id st (.gst g)).1 (.gga d)).1.lon_std_dev
          = g.lon_std_dev ∧
     (add_sentence_parsed ops cfg frame_id
        (add_sentence_parsed ops cfg frame_id st (.gst g)).1 (.gga d)).1.lat_std_dev
          = g.lat_std_dev ∧
     (add_sentence_parsed ops cfg frame_id
        (add_sentence_parsed ops cfg frame_id st (.gst g)).1 (.gga d)).1.alt_std_dev
          = g.alt_std_dev ∧
     (∃ f, first_fix_event (add_sentence_parsed ops cfg frame_id
          (add_sentence_parsed ops cfg frame_id st (.gst g)).1 (.gga d)).2 = some f ∧
        f.position_covariance 0 = ops.sq (ops.mul d.hdop g.lon_std_dev) ∧
        f.position_covariance 4 = ops.sq (ops.mul d.hdop g.lat_std_dev) ∧
        f.position_covariance 8 = ops.sq (ops.mul (ops.mul ops.two d.hdop) g.alt_std_dev))) ∧
    ((add_sentence_parsed ops cfg frame_id st (.gga d)).1.lon_std_dev =
        (if !st.using_receiver_epe || ops.isnan st.lon_std_dev
         then (lookup_gps_qual cfg d.fix_type).1 else st.lon_std_dev) ∧
     (add_sentence_parsed ops cfg frame_id st (.gga d)).1.lat_std_dev =
        (if !st.using_receiver_epe || ops.isnan st.lat_std_dev
         then (lookup_gps_qual cfg d.fix_type).1 else st.lat_std_dev) ∧
     (add_sentence_parsed ops cfg frame_id st (.gga d)).1.alt_std_dev =
        (if !st.using_receiver_epe || ops.isnan st.alt_std_dev
         then ops.mul (lookup_gps_qual cfg d.fix_type).1 ops.two else st.alt_std_dev)) := by
  constructor
  · simp only [add_sentence_parsed, h, Bool.false_eq_true, if_false]
    unfold process_gst process_gga
    by_cases hnan : ops.isnan d.utc_time <;>
      · simp only [hnan, hlon, hlat, halt, Bool.not_true, Bool.false_or, Bool.or_false,
          if_false, if_true, Bool.false_eq_true, first_fix_event]
        exact ⟨trivial, trivial, trivial, _, rfl, rfl, rfl, rfl⟩
  · simp only [add_sentence_parsed, h, Bool.false_eq_true, if_false]
    unfold process_gga
    by_cases hnan : ops.isnan d.utc_time <;> simp [hnan]

/-- Witness for `c2_epe_fallback` on a concrete GST followed by a
concrete GGA over `ℚ`. -/
theorem c2_epe_fallback_witness :
    cfgQ.use_RMC = false ∧
    ratOps.isnan gstQ.lon_std_dev = false ∧
    ratOps.isnan gstQ.lat_std_dev = false ∧
    ratOps.isnan gstQ.alt_std_dev = false ∧
    (add_sentence_parsed ratOps cfgQ "gps"
        (add_sentence_parsed ratOps cfgQ "gps" (initial_state ratOps) (.gst gstQ)).1
        (.gga ggaQ1)).1.lon_std_dev = gstQ.lon_std_dev :=
  ⟨rfl, rfl, rfl, rfl,
    (c2_epe_fallback ratOps cfgQ "gps" (initial_state ratOps) gstQ ggaQ1
      rfl rfl rfl rfl).1.1⟩

/-- C6: every GGA-produced FixEvent has covariance diagonal
((hdop*lon_std)^2, (hdop*lat_std)^2, (2*hdop*alt_std)^2) built from the
std-devs resolved by the EPE policy (the ones stored back into the
state), zero everywhere off the diagonal, and the covariance type of the
quality-table entry. -/
theorem c6_gga_covariance {α : Type} [DecidableEq α] (ops : FloatOps α) (cfg : Config α)
    (frame_id : String) (st : ReceiverState α) (d : GGAData α) (h : cfg.use_RMC = false) :
    ∃ f, first_fix_event (add_sentence_parsed ops cfg frame_id st (.gga d)).2 = some f ∧
      f.position_covariance 0 =
        ops.sq (ops.mul d.hdop
          (add_sentence_parsed ops cfg frame_id st (.gga d)).1.lon_std_dev) ∧
      f.position_covariance 4 =
        ops.sq (ops.mul d.hdop
          (add_sentence_parsed ops cfg frame_id st (.gga d)).1.lat_std_dev) ∧
      f.position_covariance 8 =
        ops.sq (ops.mul (ops.mul ops.two d.hdop)
          (add_sentence_parsed ops cfg frame_id st (.gga d)).1.alt_std_dev) ∧
      (∀ i : Fin 9, i ≠ 0 → i ≠ 4 → i ≠ 8 → f.position_covariance i = ops.zero) ∧
      f.position_covariance_type = (lookup_gps_qual cfg d.fix_type).2.2 := by
  simp only [add_sentence_parsed, h, Bool.false_eq_true, if_false]
  unfold process_gga
  by_cases hnan : ops.isnan d.utc_time <;>
    · simp only [hnan, Bool.false_eq_true, if_false, if_true, first_fix_event]
      refine ⟨_, rfl, rfl, rfl, rfl, ?_, rfl⟩
      intro i h0 h4 h8
      fin_cases i <;> simp_all

/-- Witness for `c6_gga_covariance` at a concrete GGA over `ℚ`. -/
theorem c6_gga_covariance_witness :
    cfgQ.use_RMC = false ∧
    ∃ f, first_fix_event
        (add_sentence_parsed ratOps cfgQ "gps" (initial_state ratOps) (.gga ggaQ1)).2
          = some f ∧
      f.position_covariance 0 =
        ratOps.sq (ratOps.mul ggaQ1.hdop
          (add_sentence_parsed ratOps cfgQ "gps" (initial_state ratOps)
            (.gga ggaQ1)).1.lon_std_dev) ∧
      f.position_covariance 4 =
        ratOps.sq (ratOps.mul ggaQ1.hdop
          (add_sentence_parsed ratOps cfgQ "gps" (initial_state ratOps)
            (.gga ggaQ1)).1.lat_std_dev) ∧
      f.position_covariance 8 =
        ratOps.sq (ratOps.mul (ratOps.mul ratOps.two ggaQ1.hdop)
          (add_sentence_parsed ratOps cfgQ "gps" (initial_state ratOps)
            (.gga ggaQ1)).1.alt_std_dev) ∧
      (∀ i : Fin 9, i ≠ 0 → i ≠ 4 → i ≠ 8 → f.position_covariance i = ratOps.zero) ∧
      f.position_covariance_type = (lookup_gps_qual cfgQ ggaQ1.fix_type).2.2 :=
  ⟨rfl, c6_gga_covariance ratOps cfgQ "gps" (initial_state ratOps) ggaQ1 rfl⟩

/-- C8: in the emitted FixEvent of a GGA (GGA/VTG mode) or RMC (RMC mode)
sentence, a latitude direction of S negates the decoded latitude and N
keeps it, and a longitude direction of W negates the decoded longitude
and E keeps it. -/
theorem c8_hemisphere_sign {α : Type} [DecidableEq α] (ops : FloatOps α)
    (frame_id : String) :
    (∀ (cfg : Config α) (st : ReceiverState α) (d : GGAData α), cfg.use_RMC = false →
      ∃ f, first_fix_event (add_sentence_parsed ops cfg frame_id st (.gga d)).2 = some f ∧
        (d.latitude_direction = "S" → f.latitude = ops.neg d.latitude) ∧
        (d.latitude_direction = "N" → f.latitude = d.latitude) ∧
        (d.longitude_direction = "W" → f.longitude = ops.neg d.longitude) ∧
        (d.longitude_direction = "E" → f.longitude = d.longitude)) ∧
    (∀ (cfg : Config α) (st : ReceiverState α) (r : RMCData α), cfg.use_RMC = true →
      ∃ f, first_fix_event (add_sentence_parsed ops cfg frame_id st (.rmc r)).2 = some f ∧
        (r.latitude_direction = "S" → f.latitude = ops.neg r.latitude) ∧
        (r.latitude_direction = "N" → f.latitude = r.latitude) ∧
        (r.longitude_direction = "W" → f.longitude = ops.neg r.longitude) ∧
        (r.longitude_direction = "E" → f.longitude = r.longitude)) := by
  constructor
  · intro cfg st d h
    simp only [add_sentence_parsed, h, Bool.false_eq_true, if_false]
    unfold process_gga
    by_cases hnan : ops.isnan d.utc_time <;>
      · simp only [hnan, Bool.false_eq_true, if_false, if_true, first_fix_event]
        exact ⟨_, rfl, fun hS => by simp [hS], fun hN => by simp [hN],
          fun hW => by simp [hW], fun hE => by simp [hE]⟩
  · intro cfg st r h
    simp only [add_sentence_parsed]
    unfold process_rmc
    by_cases hnan : ops.isnan r.utc_time <;> by_cases hv : r.fix_valid <;>
      · simp only [h, hnan, hv, Bool.false_eq_true, if_false, if_true, List.cons_append,
          List.nil_append, first_fix_event]
        exact ⟨_, rfl, fun hS => by simp [hS], fun hN => by simp [hN],
          fun hW => by simp [hW], fun hE => by simp [hE]⟩

/-- Witness for `c8_hemisphere_sign` on concrete S/W records in both
modes. -/
theorem c8_hemisphere_sign_witness :
    cfgQ.use_RMC = false ∧ cfgQrmc.use_RMC = true ∧
    (∃ f, first_fix_event
        (add_sentence_parsed ratOps cfgQ "gps" (initial_state ratOps) (.gga ggaQS)).2
          = some f ∧
      (ggaQS.latitude_direction = "S" → f.latitude = ratOps.neg ggaQS.latitude) ∧
      (ggaQS.latitude_direction = "N" → f.latitude = ggaQS.latitude) ∧
      (ggaQS.longitude_direction = "W" → f.longitude = ratOps.neg ggaQS.longitude) ∧
      (ggaQS.longitude_direction = "E" → f.longitude = ggaQS.longitude)) ∧
    (∃ f, first_fix_event
        (add_sentence_parsed ratOps cfgQrmc "gps" (initial_state ratOps) (.rmc rmcQS)).2
          = some f ∧
      (rmcQS.latitude_direction = "S" → f.latitude = ratOps.neg rmcQS.latitude) ∧
      (rmcQS.latitude_direction = "N" → f.latitude = rmcQS.latitude) ∧
      (rmcQS.longitude_direction = "W" → f.longitude = ratOps.neg rmcQS.longitude) ∧
      (rmcQS.longitude_direction = "E" → f.longitude = rmcQS.longitude)) :=
  ⟨rfl, rfl,
    (c8_hemisphere_sign ratOps "gps").1 cfgQ (initial_state ratOps) ggaQS rfl,
    (c8_hemisphere_sign ratOps "gps").2 cfgQrmc (initial_state ratOps) rmcQS rfl⟩

/-- The quality-table entry for quality code 0 carries the no-fix
status. -/
theorem lookup_gps_qual_zero (cfg : Config α) :
    (lookup_gps_qual cfg 0).2.1 = STATUS_NO_FIX := by
  simp [lookup_gps_qual, gps_qualities]

/-- A single engine step cannot set `valid_fix` unless the sentence is a
GGA whose quality-table status is strictly positive. -/
theorem step_preserves_no_valid_fix {α : Type} [DecidableEq α] (ops : FloatOps α)
    (cfg : Config α) (frame_id : String) (st : ReceiverState α) (p : ParsedSentence α)
    (hst : st.valid_fix = false) (hp : restores_fix cfg p = false) :
    (add_sentence_parsed ops cfg frame_id st p).1.valid_fix = false := by
  cases p with
  | gga d =>
    by_cases hR : cfg.use_RMC
    · simp [add_sentence_parsed, hR, hst]
    · simp only [restores_fix, decide_eq_false_iff_not, not_lt] at hp
      simp only [add_sentence_parsed, hR, Bool.false_eq_true, if_false]
      unfold process_gga
      by_cases hnan : ops.isnan d.utc_time <;>
        simp [hnan, decide_eq_false_iff_not, not_lt, hp]
  | vtg d =>
    by_cases hR : cfg.use_RMC <;>
      by_cases hv : st.valid_fix <;>
        simp_all [add_sentence_parsed, process_vtg]
  | rmc d => simpa [add_sentence_parsed, process_rmc] using hst
  | gst d => simpa [add_sentence_parsed, process_gst] using hst
  | hdt d =>
    obtain ⟨hd⟩ := d
    cases hd with
    | none => simpa [add_sentence_parsed, process_hdt] using hst
    | some hv =>
      by_cases ht : py_truthy ops hv <;>
        simp [add_sentence_parsed, process_hdt, ht, hst]

/-- Running any list of sentences none of which is a fix-restoring GGA
keeps `valid_fix` false. -/
theorem run_preserves_no_valid_fix {α : Type} [DecidableEq α] (ops : FloatOps α)
    (cfg : Config α) (frame_id : String) (l : List (ParsedSentence α)) :
    ∀ st : ReceiverState α, st.valid_fix = false →
      (∀ p ∈ l, restores_fix cfg p = false) →
      (run_sentences ops cfg frame_id st l).valid_fix = false := by
  induction l with
  | nil => intro st hst _; exact hst
  | cons p ps ih =>
    intro st hst hl
    simp only [run_sentences]
    exact ih _
      (step_preserves_no_valid_fix ops cfg frame_id st p hst (hl p (List.mem_cons_self p ps)))
      (fun q hq => hl q (List.mem_cons_of_mem p hq))

/-- C7: a VTG sentence emits events only when `valid_fix` is currently
true; and after a GGA with quality code 0 is processed in GGA/VTG mode,
no VTG sentence emits a VelocityEvent as long as no intervening GGA with
a fix-restoring (strictly positive) quality-table status arrives. -/
theorem c7_vtg_gated {α : Type} [DecidableEq α] (ops : FloatOps α) (cfg : Config α)
    (frame_id : String) :
    (∀ (st : ReceiverState α) (v : VTGData α),
      (add_sentence_parsed ops cfg frame_id st (.vtg v)).2 ≠ [] → st.valid_fix = true) ∧
    (∀ (st : ReceiverState α) (g : GGAData α) (l : List (ParsedSentence α)) (v : VTGData α),
      cfg.use_RMC = false → g.fix_type = 0 →
      (∀ p ∈ l, restores_fix cfg p = false) →
      (add_sentence_parsed ops cfg frame_id
        (run_sentences ops cfg frame_id
          (add_sentence_parsed ops cfg frame_id st (.gga g)).1 l) (.vtg v)).2 = []) := by
  constructor
  · intro st v hne
    by_cases hR : cfg.use_RMC
    · exact absurd (by simp [add_sentence_parsed, hR]) hne
    · by_cases hv : st.valid_fix
      · exact hv
      · exact absurd (by simp [add_sentence_parsed, process_vtg, hR, hv]) hne
  · intro st g l v hR h0 hl
    have hstep : (add_sentence_parsed ops cfg frame_id st (.gga g)).1.valid_fix = false := by
      rw [gga_valid_fix_eq ops cfg frame_id st g hR, h0]
      simp [lookup_gps_qual_zero, STATUS_NO_FIX]
    have hvf : (run_sentences ops cfg frame_id
        (add_sentence_parsed ops cfg frame_id st (.gga g)).1 l).valid_fix = false :=
      run_preserves_no_valid_fix ops cfg frame_id l _ hstep hl
    simp only [add_sentence_parsed, hR, Bool.false_eq_true, if_false] at hvf ⊢
    simp [process_vtg, hvf]

/-- Witness for `c7_vtg_gated`: after a quality-0 GGA and an intervening
GST, a VTG sentence emits nothing. -/
theorem c7_vtg_gated_witness :
    cfgQ.use_RMC = false ∧ ggaQ0.fix_type = 0 ∧
    (∀ p ∈ [ParsedSentence.gst gstQ], restores_fix cfgQ p = false) ∧
    (add_sentence_parsed ratOps cfgQ "gps"
      (run_sentences ratOps cfgQ "gps"
        (add_sentence_parsed ratOps cfgQ "gps" (initial_state ratOps) (.gga ggaQ0)).1
        [ParsedSentence.gst gstQ]) (.vtg vtgQ)).2 = [] :=
  ⟨rfl, rfl, by decide,
    (c7_vtg_gated ratOps cfgQ "gps").2 (initial_state ratOps) ggaQ0
      [ParsedSentence.gst gstQ] vtgQ rfl rfl (by decide)⟩

/-- C9: a line dropped for a checksum failure, a structural-regex
mismatch, or an unsupported sentence type produces no events and leaves
the receiver state unchanged. -/
theorem c9_dropped_line_no_effect {α : Type} [DecidableEq α] (ops : FloatOps α)
    (cfg : Config α) (dec : String → List String → ParsedSentence α) (frame_id : String)
    (st : ReceiverState α) (line : String) :
    (check_nmea_checksum line = false →
      add_sentence ops cfg dec frame_id st line = (st, [])) ∧
    (parse_nmea_regex_ok line = false →
      add_sentence ops cfg dec frame_id st line = (st, [])) ∧
    (parse_nmea_sentence line = ParseOutcome.unsupported →
      add_sentence ops cfg dec frame_id st line = (st, [])) := by
  refine ⟨fun hc => ?_, fun hr => ?_, fun hu => ?_⟩
  · simp [add_sentence, hc]
  · by_cases hc : check_nmea_checksum line
    · have hm : parse_nmea_sentence line = ParseOutcome.malformed := by
        simp [parse_nmea_sentence, hr]
      simp [add_sentence, hc, hm]
    · simp [add_sentence, hc]
  · by_cases hc : check_nmea_checksum line
    · simp [add_sentence, hc, hu]
    · simp [add_sentence, hc]

/-- Witness for `c9_dropped_line_no_effect` on a concrete
checksum-failing line and a concrete unsupported-type line. -/
theorem c9_dropped_line_no_effect_witness :
    check_nmea_checksum "hello" = false ∧
    add_sentence ratOps cfgQ decQ "gps" (initial_state ratOps) "hello" =
      (initial_state ratOps, []) ∧
    parse_nmea_sentence "$GPXYZ,1,2*47" = ParseOutcome.unsupported ∧
    add_sentence ratOps cfgQ decQ "gps" (initial_state ratOps) "$GPXYZ,1,2*47" =
      (initial_state ratOps, []) :=
  ⟨rfl,
    (c9_dropped_line_no_effect ratOps cfgQ decQ "gps" (initial_state ratOps) "hello").1 rfl,
    by decide,
    (c9_dropped_line_no_effect ratOps cfgQ decQ "gps" (initial_state ratOps)
      "$GPXYZ,1,2*47").2.2 (by decide)⟩

/-- Removing a trailing newline keeps only characters of the original
list. -/
theorem stripTrailingNewline_subset (cs : List Char) :
    ∀ x ∈ stripTrailingNewline cs, x ∈ cs := by
  intro x hx
  unfold stripTrailingNewline at hx
  split at hx
  · exact (List.dropLast_sublist cs).subset hx
  · exact hx

/-- A successful `tail_star_hex` split reconstructs the input list. -/
theorem tail_star_hex_eq {cs body : List Char} {c1 c2 : Char}
    (h : tail_star_hex cs = some (body, c1, c2)) :
    cs = body ++ ['*', c1, c2] := by
  unfold tail_star_hex at h
  split at h
  next d2 d1 revBody heq =>
    split at h
    · simp only [Option.some.injEq, Prod.mk.injEq] at h
      obtain ⟨hb, h1, h2⟩ := h
      subst hb h1 h2
      have h3 := congrArg List.reverse heq
      simpa using h3
    · simp at h
  next => simp at h

/-- A talker head accepted by `talkerOk` has exactly three characters. -/
theorem talkerOk_length {l : List Char} (h : talkerOk l = true) : l.length = 3 := by
  simp only [talkerOk, Bool.or_eq_true, decide_eq_true_eq] at h
  rcases h with ((h | h) | h) | h <;> rw [h] <;> rfl

/-- C5 fails on the code: the line `$GP*47` is rejected by the spec's
structural grammar (it has no word characters after the talker head) but
is accepted by the weaker regex of line 134, so `parse_nmea_sentence`
does not fail with MalformedSentence and proceeds to field splitting. -/
theorem c5_regex_counterexample :
    spec_structural_ok "$GP*47" = false ∧
    parse_nmea_regex_ok "$GP*47" = true ∧
    parse_nmea_sentence "$GP*47" ≠ ParseOutcome.malformed :=
  ⟨by decide, by decide, by decide⟩

/-- C5 (amended): the parser fails with MalformedSentence exactly on
lines not matched by its own regex
`(^\$GP|^\$GN|^\$GL|^\$IN).*\*[0-9A-Fa-f]{2}$`; on newline-free lines
this accepts a superset of the spec's structural grammar — every line
the grammar accepts proceeds to field splitting, but some
grammar-rejected lines (such as `$GP*47`) do as well. -/
theorem c5_regex_amended (line : String) (hnl : '\n' ∉ line.data) :
    (parse_nmea_sentence line = ParseOutcome.malformed ↔
      parse_nmea_regex_ok line = false) ∧
    (spec_structural_ok line = true → parse_nmea_regex_ok line = true) := by
  constructor
  · by_cases hr : parse_nmea_regex_ok line
    · rw [hr]
      constructor
      · intro h
        simp only [parse_nmea_sentence, hr, Bool.not_true, Bool.false_eq_true, if_false] at h
        split at h <;> simp_all
      · intro h
        simp at h
    · have hr' : parse_nmea_regex_ok line = false := by simpa using hr
      simp [parse_nmea_sentence, hr']
  · intro hs
    have hcs := stripTrailingNewline_subset line.data
    unfold spec_structural_ok at hs
    unfold parse_nmea_regex_ok
    rcases htsh : tail_star_hex (stripTrailingNewline line.data) with _ | ⟨body, c1, c2⟩
    · rw [htsh] at hs
      simp at hs
    · rw [htsh] at hs
      simp only [Option.elim_some, Bool.and_eq_true] at hs
      obtain ⟨ht, _⟩ := hs
      have hceq : stripTrailingNewline line.data = body ++ ['*', c1, c2] :=
        tail_star_hex_eq htsh
      have hlen : 3 ≤ body.length := by
        have h3 : (body.take 3).length = 3 := talkerOk_length ht
        rw [List.length_take] at h3
        omega
      rw [Bool.and_eq_true]
      refine ⟨?_, ?_⟩
      · rw [hceq, List.take_append_of_le_length hlen]
        exact ht
      · simp only [Option.elim_some, List.all_eq_true, decide_eq_true_eq]
        intro x hx
        have hxb : x ∈ body := List.drop_subset 3 body hx
        have hxl : x ∈ line.data := by
          apply hcs
          rw [hceq]
          exact List.mem_append_left _ hxb
        intro hxe
        exact hnl (hxe ▸ hxl)

/-- Witness for `c5_regex_amended` on a concrete newline-free line. -/
theorem c5_regex_amended_witness :
    '\n' ∉ "$GPGGA,1,2*47".data ∧
    (parse_nmea_sentence "$GPGGA,1,2*47" = ParseOutcome.malformed ↔
      parse_nmea_regex_ok "$GPGGA,1,2*47" = false) ∧
    (spec_structural_ok "$GPGGA,1,2*47" = true →
      parse_nmea_regex_ok "$GPGGA,1,2*47" = true) :=
  ⟨by decide, (c5_regex_amended "$GPGGA,1,2*47" (by decide)).1,
    (c5_regex_amended "$GPGGA,1,2*47" (by decide)).2⟩

end BerryGps
